import Mathlib

/-!
Verification of the Expectation Extraction & Coverage-Matching Engine of the
Combined-App repository (src/Combined.py, src/Combined_keep.py).

The Python source is shallowly embedded: each Python function becomes a Lean
definition of the same name; Python floats used for scores and font sizes are
modelled with exact rationals; Python truthiness of optional values (None and
0 are falsy) is modelled explicitly; the external collaborators (the
fuzzywuzzy partial-ratio similarity and the SpellChecker dictionary) are
parameters of the embedded functions, as the spec treats them as injected
collaborators.
-/

namespace CombinedApp

/-- ASCII model of Python str.lower(): lowercase every character.  All texts
the program manipulates at these call sites are ASCII. -/
def pyLower (s : String) : String :=
  String.mk (s.toList.map Char.toLower)

/-- Model of Python str.strip(c): remove the character from BOTH ends of the
string (this is what the source calls as text.strip at the heading sites). -/
def pyStripColons (s : String) : String :=
  String.mk (((s.toList.dropWhile (fun c => c == ':')).reverse.dropWhile
    (fun c => c == ':')).reverse)

/-- ASCII model of Python str.title(): uppercase every alphabetic character
that follows a non-alphabetic one (or starts the string), lowercase the other
alphabetic characters. -/
def pyTitleAux : Bool → List Char → List Char
  | _, [] => []
  | prevAlpha, c :: t =>
    (if c.isAlpha then (if prevAlpha then c.toLower else c.toUpper) else c)
      :: pyTitleAux c.isAlpha t

/-- ASCII model of Python str.title(). -/
def pyTitle (s : String) : String :=
  String.mk (pyTitleAux false s.toList)

/-- Containment of a character list in another, scanning every suffix. -/
def listContainsSub (needle : List Char) : List Char → Bool
  | [] => needle.isEmpty
  | c :: t => needle.isPrefixOf (c :: t) || listContainsSub needle t

/-- Model of the Python substring test: strContains hay needle is the Python
expression needle in hay. -/
def strContains (hay needle : String) : Bool :=
  listContainsSub needle.toList hay.toList

/-- Python str.split for the newline separator, on char lists (the
accumulator holds the current chunk reversed); structural, so that concrete
inputs evaluate inside the kernel. -/
def splitNlAux : List Char → List Char → List String
  | [], cur => [String.mk cur.reverse]
  | c :: t, cur =>
    if c = '\n' then String.mk cur.reverse :: splitNlAux t []
    else splitNlAux t (c :: cur)

/-- Model of the Python call text.split on a newline: the result always has
at least one element (Python semantics for a nonempty separator). -/
def pySplitNewline (s : String) : List String := splitNlAux s.toList []

/-- Model of Python sep.join(parts). -/
def joinWith (sep : String) : List String → String
  | [] => ""
  | [s] => s
  | s :: rest => s ++ sep ++ joinWith sep rest

/-- Occurrence count of a rational in a list (Python list.count). -/
def countEq (l : List ℚ) (x : ℚ) : ℕ :=
  (l.filter (fun y => y == x)).length

/-- Model of the Python idiom max(set(sizes), key=sizes.count) with a default
for the empty list: a value of maximal multiplicity.  Python iterates the set
in an unspecified order, so its tie-break among equally frequent values is
unspecified; this model breaks ties deterministically, and no theorem below
depends on the tie-break. -/
def modeD (l : List ℚ) (d : ℚ) : ℚ :=
  match l.dedup with
  | [] => d
  | x :: rest =>
    rest.foldl (fun best y => if countEq l y > countEq l best then y else best) x

/-- A styled text run handed to the core by the external document decoder
(Combined.py extract_text_with_formatting): text, boldness flag and optional
font size in points.  A docx run whose bold attribute is None is falsy in the
source conditions, hence bold is a plain Bool here. -/
structure StyledRun where
  text : String
  bold : Bool
  font_size : Option ℚ
deriving DecidableEq

/-- Python truthiness of the optional font size: None and 0 are falsy. -/
def sizeTruthy : Option ℚ → Bool
  | none => false
  | some q => q != 0

/-- The Python test font_size and font_size > body. -/
def sizeGt (o : Option ℚ) (body : ℚ) : Bool :=
  match o with
  | none => false
  | some q => (q != 0) && decide (body < q)

/-- An extracted expectation: the inferred section and the verbatim run text
(Combined.py extract_rfp_expectations builds dicts with keys section and
expectation). -/
structure Expectation where
  sectionName : String
  text : String
deriving DecidableEq

/-- Keyword catalog of Combined.py extract_rfp_expectations. -/
def keywords : List String :=
  ["deliverable", "budget", "timeline", "expected", "scope of work",
   "methodology", "objective", "goal", "requirements", "outcomes"]

/-- The sizes the source collects for the body-font baseline: falsy entries
(None and 0) are dropped by the Python list comprehension filter. -/
def truthySizes (runs : List StyledRun) : List ℚ :=
  runs.filterMap (fun r =>
    match r.font_size with
    | none => none
    | some q => if q ≠ 0 then some q else none)

/-- The body font size of Combined.py extract_rfp_expectations line 134:
most common truthy font size, default 11. -/
def rfp_body_font_size (runs : List StyledRun) : ℚ :=
  modeD (truthySizes runs) 11

/-- The heading test of Combined.py line 145: bold or a truthy font size
strictly above the body baseline. -/
def isHeading (body : ℚ) (r : StyledRun) : Bool :=
  r.bold || sizeGt r.font_size body

/-- Scan state of the extraction loop: the current section cursor, the seen
set of lowercased texts (a Python set, modelled as a list in which only
membership is consulted) and the expectations accumulated so far. -/
structure ScanState where
  current_section : String
  seen : List String
  expectations : List Expectation
deriving DecidableEq

/-- One iteration of the loop of Combined.py extract_rfp_expectations
lines 136-153, with the body font size precomputed. -/
def extractStep (body : ℚ) (st : ScanState) (r : StyledRun) : ScanState :=
  if r.text = "" then st
  else if isHeading body r then
    { st with current_section := pyTitle (pyStripColons r.text) }
  else if keywords.any (fun k => strContains (pyLower r.text) k) then
    if st.seen.contains (pyLower r.text) then st
    else { st with
      expectations := st.expectations ++ [⟨st.current_section, r.text⟩],
      seen := pyLower r.text :: st.seen }
  else st

/-- The initial scan state: current section General, nothing seen, nothing
emitted. -/
def initState : ScanState := ⟨"General", [], []⟩

/-- Combined.py extract_rfp_expectations: infer headings from formatting and
emit keyword-bearing, not-yet-seen runs as expectations. -/
def extract_rfp_expectations (runs : List StyledRun) : List Expectation :=
  (runs.foldl (extractStep (rfp_body_font_size runs)) initState).expectations

/-- The running best-score loop of Combined.py check_expectations_coverage
lines 165-172: start at 0, keep any strictly larger paragraph score.  The
similarity (fuzzywuzzy partial_ratio, an external library) is a parameter. -/
def bestScore (sim : String → String → ℕ) (expText : String)
    (paras : List String) : ℕ :=
  paras.foldl (fun best p => if sim expText p > best then sim expText p else best) 0

/-- Combined.py check_expectations_coverage with the fixed threshold replaced
by a parameter t (the source hardcodes 70); returns the triple
(score, addressed, missing).  The source wraps each expectation in a
one-field dict before appending; that wrapper is dropped here. -/
def check_expectations_coverage_t (sim : String → String → ℕ) (t : ℕ)
    (expectations : List Expectation) (proposal_text : String) :
    ℚ × List Expectation × List Expectation :=
  let paras := pySplitNewline proposal_text
  let addressed := expectations.filter
    (fun e => decide (bestScore sim e.text paras ≥ t))
  let missing := expectations.filter
    (fun e => !(decide (bestScore sim e.text paras ≥ t)))
  let score : ℚ :=
    if expectations = [] then 0
    else ((addressed.length : ℚ) / (expectations.length : ℚ)) * 100
  (score, addressed, missing)

/-- Combined.py check_expectations_coverage as written, with its hardcoded
threshold 70. -/
def check_expectations_coverage (sim : String → String → ℕ)
    (expectations : List Expectation) (proposal_text : String) :
    ℚ × List Expectation × List Expectation :=
  check_expectations_coverage_t sim 70 expectations proposal_text

/-- The maximum similarity between an expectation text and any paragraph, the
quantity the spec speaks about (the paragraph list produced by splitting is
never empty, so the fold base 0 is inert). -/
def maxSimilarity (sim : String → String → ℕ) (expText : String)
    (paras : List String) : ℕ :=
  (paras.map (sim expText)).foldr Nat.max 0

/-- A run of a python-docx paragraph as consumed by the Standards Scorer:
only the font name and the font size are read there. -/
structure DocRun where
  font_name : Option String
  font_size : Option ℚ
deriving DecidableEq

/-- A python-docx paragraph: text, style name and runs. -/
structure DocParagraph where
  text : String
  style_name : String
  runs : List DocRun
deriving DecidableEq

/-- A python-docx Document as consumed by the Standards Scorer. -/
structure PyDoc where
  paragraphs : List DocParagraph
deriving DecidableEq

/-- Python truthiness of the optional font name: None and the empty string
are falsy. -/
def nameTruthy : Option String → Bool
  | none => false
  | some n => n != ""

/-- The font-name condition of Combined.py formatting_check line 270: a truthy
font name whose lowercase form is outside the approved pair. -/
def fontNameBad (r : DocRun) : Bool :=
  nameTruthy r.font_name &&
    !(["tenorite", "candara"].contains (pyLower (r.font_name.getD (""))))

/-- The heading style names exempt from the uniform body-size rule. -/
def headingStyles : List String := ["Heading 1", "Heading 2", "Heading 3"]

/-- The font-size condition of Combined.py formatting_check lines 272-273: a
truthy font size different from the body baseline, inside a paragraph whose
style is not a heading style. -/
def fontSizeBad (body : ℚ) (style : String) (r : DocRun) : Bool :=
  sizeTruthy r.font_size && (r.font_size.getD 0 != body) &&
    !(headingStyles.contains style)

/-- One run of the inner loop of Combined.py formatting_check lines 269-274,
updating the pair (font_ok, font_size_ok). -/
def fmtRunStep (body : ℚ) (style : String) (st : Bool × Bool) (r : DocRun) :
    Bool × Bool :=
  ((if fontNameBad r then false else st.1),
   (if fontSizeBad body style r then false else st.2))

/-- The paragraph loop of Combined.py formatting_check lines 268-276,
including the early exit (break) taken after any paragraph at whose end
either flag has become false. -/
def fmtScan (body : ℚ) : List DocParagraph → Bool × Bool → Bool × Bool
  | [], st => st
  | p :: rest, st =>
    let st' := p.runs.foldl (fmtRunStep body p.style_name) st
    if !st'.1 || !st'.2 then st' else fmtScan body rest st'

/-- Word characters of the regex token \w. -/
def isWordChar (c : Char) : Bool := c.isAlphanum || c == '_'

/-- Maximal runs of word characters, the matches of the word regex used by
formatting_check (first argument: remaining input, second: current word in
reverse). -/
def tokenizeAux : List Char → List Char → List String
  | [], cur => if cur.isEmpty then [] else [String.mk cur.reverse]
  | c :: t, cur =>
    if isWordChar c then tokenizeAux t (c :: cur)
    else if cur.isEmpty then tokenizeAux t []
    else String.mk cur.reverse :: tokenizeAux t []

/-- Tokenization into word-character runs (the findall over the word regex in
Combined.py formatting_check line 253). -/
def tokenize (s : String) : List String := tokenizeAux s.toList []

/-- The truthy font sizes collected by formatting_check lines 258-262. -/
def docTruthySizes (doc : PyDoc) : List ℚ :=
  doc.paragraphs.flatMap (fun p => p.runs.filterMap (fun r =>
    match r.font_size with
    | none => none
    | some q => if q ≠ 0 then some q else none))

/-- The body font size of formatting_check line 264: most common truthy size,
default 11. -/
def doc_body_font_size (doc : PyDoc) : ℚ :=
  modeD (docTruthySizes doc) 11

/-- Result record of Combined.py formatting_check. -/
structure FormattingResults where
  spelling_issues : List String
  font_ok : Bool
  font_size_ok : Bool
deriving DecidableEq

/-- Combined.py formatting_check, parameterised by the external SpellChecker
collaborator (unknown: the list of tokens the dictionary does not know; the
source turns a set into a list, in unspecified order, before capping at 15;
that order is absorbed into the parameter). -/
def formatting_check (unknown : List String → List String) (doc : PyDoc) :
    FormattingResults :=
  let text := joinWith (String.mk ['\n']) (doc.paragraphs.map (fun p => p.text))
  let spelling_issues := (unknown (tokenize (pyLower text))).take 15
  let body := doc_body_font_size doc
  let flags := fmtScan body doc.paragraphs (true, true)
  ⟨spelling_issues, flags.1, flags.2⟩

/-- Combined.py STANDARD_SECTIONS: each Python or-chain of string literals
collapses to its first operand at definition time, so the list has these
nine entries. -/
def STANDARD_SECTIONS : List String :=
  ["Table of content", "Introduction", "Background", "Objective",
   "Methodology", "Project Team", "About Sahel", "Budget", "Work Plan"]

/-- Combined.py methodology_components (lines 199-207): the or-chains again
collapse to their first operands, leaving these seven entries. -/
def methodology_components : List String :=
  ["project kick-off", "desk review", "data collection", "data analysis",
   "data management", "report development", "deliverables"]

/-- The per-section presence test of Combined.py evaluate_proposal line 188:
the label occurs as a case-insensitive substring of some paragraph. -/
def sectionFound (doc : PyDoc) (sec : String) : Bool :=
  doc.paragraphs.any (fun p => strContains (pyLower p.text) (pyLower sec))

/-- The section_results mapping of evaluate_proposal lines 186-189 (a Python
dict with insertion order, modelled as an association list). -/
def section_results (required : List String) (doc : PyDoc) :
    List (String × Bool) :=
  required.map (fun sec => (sec, sectionFound doc sec))

/-- The section percentage of evaluate_proposal lines 191-192. -/
def section_percentage (required : List String) (doc : PyDoc) : ℚ :=
  ((((section_results required doc).filter (fun x => x.2)).length : ℚ) /
    (required.length : ℚ)) * 100

/-- The methodology text of evaluate_proposal lines 217-219: the lowercased
join of the paragraphs mentioning methodology or approach. -/
def methodology_text (doc : PyDoc) : String :=
  pyLower (joinWith (String.mk ['\n'])
    ((doc.paragraphs.filter (fun p =>
      strContains (pyLower p.text) ("methodology") ||
      strContains (pyLower p.text) ("approach"))).map (fun p => p.text)))

/-- The missing methodology components of evaluate_proposal line 220. -/
def missing_components_of (doc : PyDoc) : List String :=
  methodology_components.filter (fun comp => !(strContains (methodology_text doc) comp))

/-- Model of Python round on a rational: round half to even (the argument is
an exact integer at the single call site, where this is the identity). -/
def pyRound (q : ℚ) : ℤ :=
  if q - ⌊q⌋ = 1 / 2 then (if ⌊q⌋ % 2 = 0 then ⌊q⌋ else ⌊q⌋ + 1)
  else round q

/-- Result record of Combined.py evaluate_proposal. -/
structure Evaluation where
  sections : List (String × Bool)
  score : ℚ
  recommendations : List String
  formatting : FormattingResults
deriving DecidableEq

/-- Combined.py evaluate_proposal (lines 183-248), parameterised by the
external dictionary collaborator.  The text argument mirrors the source
parameter; the source computes lower_text from it and never uses it. -/
def evaluate_proposal (unknown : List String → List String) (text : String)
    (required_sections : List String) (doc : PyDoc) : Evaluation :=
  let secResults := section_results required_sections doc
  let secPercentage := section_percentage required_sections doc
  let formatting_results := formatting_check unknown doc
  let spell_score : ℚ :=
    if formatting_results.spelling_issues = [] then 100
    else max 0 (100 - (formatting_results.spelling_issues.length : ℚ) * 10)
  let missing_components := missing_components_of doc
  let methodology_score : ℚ :=
    if missing_components = [] then 100
    else 100 - (missing_components.length : ℚ) * 10
  let font_style_score : ℚ := if formatting_results.font_ok then 100 else 0
  let font_size_score : ℚ := if formatting_results.font_size_ok then 100 else 0
  let formatting_score := (font_style_score + font_size_score) / 2
  let total_score :=
    secPercentage * (35 / 100) + spell_score * (20 / 100) +
      methodology_score * (25 / 100) +
      ((pyRound (formatting_score * (20 / 100)) : ℤ) : ℚ)
  let missing_sections := (secResults.filter (fun x => !x.2)).map (fun x => x.1)
  let recommendations :=
    (if missing_sections ≠ [] then
      ["Kindly include the following missing sections: " ++
        joinWith (", ") missing_sections] else []) ++
    (if formatting_results.spelling_issues ≠ [] then
      ["Spelling issues found in the document."] else []) ++
    (if !formatting_results.font_ok then
      ["Document should use font \x27Tenorite\x27 or \x27Candara\x27 throughout."] else []) ++
    (if !formatting_results.font_size_ok then
      ["Body text should use font size 11."] else []) ++
    (if missing_components ≠ [] then
      ["The methodology section is missing the following components: " ++
        pyTitle (joinWith (", ") missing_components.dedup)] else [])
  ⟨secResults, total_score, recommendations, formatting_results⟩

/-- The section cursor update performed for one run by the scan of
extract_rfp_expectations: empty runs leave it alone, heading runs replace it,
body runs keep it. -/
def tagStep (body : ℚ) (sec : String) (r : StyledRun) : String :=
  if r.text = "" then sec
  else if isHeading body r then pyTitle (pyStripColons r.text) else sec

/-- The heading-inference phase of extract_rfp_expectations made explicit:
tag every run with the section cursor as it stands once that run has been
processed. -/
def tagRuns (body : ℚ) (sec : String) : List StyledRun → List (StyledRun × String)
  | [] => []
  | r :: rest => (r, tagStep body sec r) :: tagRuns body (tagStep body sec r) rest

/-- The Heading Inferencer of the spec, as realised inside Combined.py
extract_rfp_expectations: the body baseline is the modal truthy font size and
the cursor starts at General. -/
def heading_inferencer (runs : List StyledRun) : List (StyledRun × String) :=
  tagRuns (rfp_body_font_size runs) ("General") runs

/-- The expectation-extraction phase of extract_rfp_expectations operating on
tagged runs: state is the seen set and the accumulated expectations. -/
def taggedStep (body : ℚ) (st : List String × List Expectation)
    (tr : StyledRun × String) : List String × List Expectation :=
  if tr.1.text = "" then st
  else if isHeading body tr.1 then st
  else if keywords.any (fun k => strContains (pyLower tr.1.text) k) then
    if st.1.contains (pyLower tr.1.text) then st
    else (pyLower tr.1.text :: st.1, st.2 ++ [⟨tr.2, tr.1.text⟩])
  else st

/-- The spec wording for the heading rename: only TRAILING colons stripped
(the source strips both ends).  Kept to compare the spec text with the
source behaviour. -/
def specStripTrailingColons (s : String) : String :=
  String.mk ((s.toList.reverse.dropWhile (fun c => c == ':')).reverse)

/-- The two dedup invariants of the extraction loop: the lowercased emitted
texts are pairwise distinct and each of them is recorded in the seen set. -/
def DedupInv (st : ScanState) : Prop :=
  (st.expectations.map (fun e => pyLower e.text)).Nodup ∧
    ∀ e ∈ st.expectations, pyLower e.text ∈ st.seen

/-- The spec formula for the spelling subscore. -/
def specSpellScore (issueCount : ℕ) : ℚ :=
  if issueCount = 0 then 100 else max 0 (100 - 10 * (issueCount : ℚ))

/-- The spec formula for the methodology subscore. -/
def specMethodologyScore (missingCount : ℕ) : ℚ :=
  if missingCount = 0 then 100 else max 0 (100 - 10 * (missingCount : ℚ))

/-- The spec formula for the formatting subscore: the average of the two
formatting booleans mapped to 100 or 0. -/
def specFormattingScore (fontOk fontSizeOk : Bool) : ℚ :=
  ((if fontOk then (100 : ℚ) else 0) + (if fontSizeOk then (100 : ℚ) else 0)) / 2

/-- C7 counterexample: the claim as stated fails on the code because of the
early exit.  In this document the body baseline is 11, the first paragraph
carries a disapproved font name (so the scan breaks after it) and the second
paragraph holds a size-14 run in a non-heading paragraph; fontSizeOk
nevertheless comes out true. -/
def breakDoc : PyDoc :=
  ⟨[⟨"first paragraph", "Normal",
      [⟨some ("arial"), some 11⟩, ⟨some ("arial"), some 11⟩]⟩,
    ⟨"second paragraph", "Normal", [⟨some ("candara"), some 14⟩]⟩]⟩

/-- A document whose fonts are all approved but whose second paragraph holds
an oversized run. -/
def goodFontBadSizeDoc : PyDoc :=
  ⟨[⟨"first paragraph", "Normal",
      [⟨some ("candara"), some 11⟩, ⟨some ("candara"), some 11⟩]⟩,
    ⟨"second paragraph", "Normal", [⟨some ("candara"), some 14⟩]⟩]⟩

/-- A concrete scenario-B document: all required sections except Budget occur
as paragraph substrings, the methodology paragraph carries all seven catalog
components, every run uses the approved font Candara at the uniform size
11, and the dictionary collaborator flags nothing. -/
def scenarioBDoc : PyDoc :=
  ⟨[⟨"table of content", "Normal", [⟨some ("candara"), some 11⟩]⟩,
    ⟨"introduction", "Normal", [⟨some ("candara"), some 11⟩]⟩,
    ⟨"background", "Normal", [⟨some ("candara"), some 11⟩]⟩,
    ⟨"objective", "Normal", [⟨some ("candara"), some 11⟩]⟩,
    ⟨"project team", "Normal", [⟨some ("candara"), some 11⟩]⟩,
    ⟨"about sahel", "Normal", [⟨some ("candara"), some 11⟩]⟩,
    ⟨"work plan", "Normal", [⟨some ("candara"), some 11⟩]⟩,
    ⟨"methodology: project kick-off, desk review, data collection, data analysis, data management, report development, deliverables",
      "Normal", [⟨some ("candara"), some 11⟩]⟩]⟩

/-- One step of the fused source loop agrees with the tag-then-extract
decomposition. -/
lemma extractStep_eq_tag (body : ℚ) (sec : String) (seen : List String)
    (acc : List Expectation) (r : StyledRun) :
    extractStep body ⟨sec, seen, acc⟩ r =
      ⟨tagStep body sec r,
       (taggedStep body (seen, acc) (r, tagStep body sec r)).1,
       (taggedStep body (seen, acc) (r, tagStep body sec r)).2⟩ := by
  by_cases he : r.text = ""
  · simp [extractStep, tagStep, taggedStep, he]
  · by_cases hh : isHeading body r
    · simp [extractStep, tagStep, taggedStep, he, hh]
    · by_cases hk : keywords.any (fun k => strContains (pyLower r.text) k)
      · by_cases hs : pyLower r.text ∈ seen
        · simp [extractStep, tagStep, taggedStep, he, hh, hk, hs]
        · simp [extractStep, tagStep, taggedStep, he, hh, hk, hs]
      · simp [extractStep, tagStep, taggedStep, he, hh, hk]

/-- The fused scan of extract_rfp_expectations equals the fold of the
extraction phase over the tagged runs. -/
lemma foldl_extract_eq_tagged (body : ℚ) :
    ∀ (runs : List StyledRun) (sec : String) (seen : List String)
      (acc : List Expectation),
      (tagRuns body sec runs).foldl (taggedStep body) (seen, acc) =
        ((runs.foldl (extractStep body) ⟨sec, seen, acc⟩).seen,
         (runs.foldl (extractStep body) ⟨sec, seen, acc⟩).expectations) := by
  intro runs
  induction runs with
  | nil => intro sec seen acc; simp [tagRuns]
  | cons r rest ih =>
    intro sec seen acc
    simp only [tagRuns, List.foldl_cons]
    rw [extractStep_eq_tag]
    exact ih (tagStep body sec r) _ _

/-- Combined.py extract_rfp_expectations factors through the explicit
heading-inference phase: extracting from the tagged runs reproduces the
fused source loop exactly. -/
lemma extract_rfp_expectations_eq_pipeline (runs : List StyledRun) :
    extract_rfp_expectations runs =
      ((heading_inferencer runs).foldl
        (taggedStep (rfp_body_font_size runs)) ([], [])).2 := by
  unfold extract_rfp_expectations heading_inferencer initState
  rw [foldl_extract_eq_tagged]

/-- The tagger touches no run and invents none: its first projections are the
input list itself. -/
lemma tagRuns_map_fst (body : ℚ) :
    ∀ (runs : List StyledRun) (sec : String),
      (tagRuns body sec runs).map Prod.fst = runs := by
  intro runs
  induction runs with
  | nil => intro sec; simp [tagRuns]
  | cons r rest ih => intro sec; simp [tagRuns, ih]

/-- C6: for every input sequence of styled runs, the heading-inference phase
produces one (run, section) pair per input run, with the same length and the
runs in the same order (the first projections are the input list itself).
The lemma extract_rfp_expectations_eq_pipeline ties this phase back to the
fused source loop. -/
theorem heading_inferencer_length_order (runs : List StyledRun) :
    (heading_inferencer runs).length = runs.length ∧
      (heading_inferencer runs).map Prod.fst = runs := by
  have h := tagRuns_map_fst (rfp_body_font_size runs) runs ("General")
  refine ⟨?_, h⟩
  have := congrArg List.length h
  simpa using this

/-- C10: a run with empty text is skipped entirely by the extraction scan: it
changes neither the section cursor nor the seen set nor the emitted
expectations, whatever its bold flag and font size. -/
theorem empty_text_run_noop (body : ℚ) (st : ScanState) (r : StyledRun)
    (h : r.text = "") : extractStep body st r = st := by
  simp [extractStep, h]

/-- Witness for empty_text_run_noop: a bold, oversized, empty run leaves the
initial state untouched. -/
theorem empty_text_run_noop_witness :
    extractStep 11 initState ⟨"", true, some 20⟩ = initState :=
  empty_text_run_noop 11 initState ⟨"", true, some 20⟩ (by decide)

/-- C5 counterexample: the claim as stated fails twice on the code.  A bold
run whose text carries a leading colon is renamed with BOTH ends stripped,
not only the trailing ones; and a bold run with empty text is skipped and
does not update the section cursor at all. -/
theorem bold_heading_claim_counterexample :
    ((extractStep 11 initState ⟨":budget", true, none⟩).current_section
        = "Budget" ∧
      pyTitle (specStripTrailingColons (":budget")) = ":Budget" ∧
      ("Budget" : String) ≠ ":Budget") ∧
    ((extractStep 11 initState ⟨"", true, some 20⟩).current_section
        = "General" ∧
      ("General" : String) ≠ pyTitle (specStripTrailingColons (""))) := by
  decide

/-- C5 amended: a bold run with NONEMPTY text is always treated as a new
heading regardless of its font size: the section cursor becomes the run text
with colons stripped from both ends and then title-cased, and nothing else in
the state changes (in particular no expectation is emitted); a bold run with
empty text is skipped and the cursor is unchanged. -/
theorem bold_run_updates_section (body : ℚ) (st : ScanState) (r : StyledRun)
    (hb : r.bold = true) (ht : r.text ≠ "") :
    extractStep body st r =
      { st with current_section := pyTitle (pyStripColons r.text) } := by
  simp [extractStep, isHeading, hb, ht]

/-- Witness for bold_run_updates_section: a bold run of body-sized text is
renamed to the stripped, title-cased heading. -/
theorem bold_run_updates_section_witness :
    extractStep 11 initState ⟨"budget:", true, some 5⟩ =
      ⟨"Budget", [], []⟩ := by
  have h := bold_run_updates_section 11 initState ⟨"budget:", true, some 5⟩
    rfl (by decide)
  simpa using h

/-- C4: an empty expectation list never fails: the score is 0 and both the
addressed and the missing sequences are empty. -/
theorem check_expectations_coverage_empty (sim : String → String → ℕ)
    (proposal_text : String) :
    check_expectations_coverage sim [] proposal_text = (0, [], []) := rfl

/-- The running strictly-greater update computes a maximum. -/
lemma foldl_maxupd (l : List ℕ) :
    ∀ a : ℕ, l.foldl (fun best x => if x > best then x else best) a
      = Nat.max a (l.foldr Nat.max 0) := by
  induction l with
  | nil => intro a; simp
  | cons x t ih =>
    intro a
    simp only [List.foldl_cons, List.foldr_cons, ih]
    have h : (if x > a then x else a) = Nat.max a x := by
      unfold Nat.max
      split
      · exact (sup_eq_right.mpr (by omega)).symm
      · exact (sup_eq_left.mpr (by omega)).symm
    rw [h]
    exact Nat.max_assoc a x _

/-- The source best-score loop equals the maximum similarity against any
paragraph. -/
lemma bestScore_eq_maxSimilarity (sim : String → String → ℕ)
    (expText : String) (paras : List String) :
    bestScore sim expText paras = maxSimilarity sim expText paras := by
  unfold bestScore maxSimilarity
  rw [← List.foldl_map (f := sim expText)
    (g := fun best x => if x > best then x else best)]
  rw [foldl_maxupd]
  simp

/-- The addressed component of the coverage result, by unfolding. -/
lemma coverage_addressed_eq (sim : String → String → ℕ) (t : ℕ)
    (exps : List Expectation) (proposal_text : String) :
    (check_expectations_coverage_t sim t exps proposal_text).2.1 =
      exps.filter (fun e =>
        decide (bestScore sim e.text (pySplitNewline proposal_text) ≥ t)) := rfl

/-- The missing component of the coverage result, by unfolding. -/
lemma coverage_missing_eq (sim : String → String → ℕ) (t : ℕ)
    (exps : List Expectation) (proposal_text : String) :
    (check_expectations_coverage_t sim t exps proposal_text).2.2 =
      exps.filter (fun e =>
        !(decide (bestScore sim e.text (pySplitNewline proposal_text) ≥ t))) := rfl

/-- The score component of the coverage result, by unfolding. -/
lemma coverage_score_eq (sim : String → String → ℕ) (t : ℕ)
    (exps : List Expectation) (proposal_text : String) :
    (check_expectations_coverage_t sim t exps proposal_text).1 =
      (if exps = [] then 0
       else (((check_expectations_coverage_t sim t exps proposal_text).2.1.length : ℚ) /
         (exps.length : ℚ)) * 100) := rfl

/-- The source function is the threshold-parametric one at 70. -/
lemma check_expectations_coverage_def (sim : String → String → ℕ)
    (exps : List Expectation) (proposal_text : String) :
    check_expectations_coverage sim exps proposal_text =
      check_expectations_coverage_t sim 70 exps proposal_text := rfl

/-- C1: an expectation lands in the addressed list iff it occurs in the input
and the maximum partial-ratio similarity between its text and some
newline-separated paragraph of the proposal is at least 70; it lands in the
missing list iff that maximum is below 70; and the score is the addressed
count over the total times 100 (for an empty input both sides are 0, the
division by zero being 0 in ℚ). -/
theorem check_expectations_coverage_spec (sim : String → String → ℕ)
    (exps : List Expectation) (proposal_text : String) :
    (∀ e, e ∈ (check_expectations_coverage sim exps proposal_text).2.1 ↔
      (e ∈ exps ∧ 70 ≤ maxSimilarity sim e.text (pySplitNewline proposal_text))) ∧
    (∀ e, e ∈ (check_expectations_coverage sim exps proposal_text).2.2 ↔
      (e ∈ exps ∧ maxSimilarity sim e.text (pySplitNewline proposal_text) < 70)) ∧
    (check_expectations_coverage sim exps proposal_text).1 =
      (((check_expectations_coverage sim exps proposal_text).2.1.length : ℚ) /
        (exps.length : ℚ)) * 100 := by
  refine ⟨?_, ?_, ?_⟩
  · intro e
    rw [check_expectations_coverage_def, coverage_addressed_eq, List.mem_filter]
    simp [bestScore_eq_maxSimilarity]
  · intro e
    rw [check_expectations_coverage_def, coverage_missing_eq, List.mem_filter]
    simp [bestScore_eq_maxSimilarity, Nat.not_le]
  · rw [check_expectations_coverage_def, coverage_score_eq]
    by_cases h : exps = []
    · subst h
      simp [coverage_addressed_eq]
    · rw [if_neg h]

/-- C9: coverage classification is monotone in the threshold: anything
addressed at the larger threshold is addressed at the smaller one. -/
theorem coverage_threshold_monotone (sim : String → String → ℕ)
    (t1 t2 : ℕ) (exps : List Expectation) (proposal_text : String)
    (e : Expectation) (hle : t1 ≤ t2)
    (h : e ∈ (check_expectations_coverage_t sim t2 exps proposal_text).2.1) :
    e ∈ (check_expectations_coverage_t sim t1 exps proposal_text).2.1 := by
  unfold check_expectations_coverage_t at h ⊢
  simp only [List.mem_filter, decide_eq_true_eq] at h ⊢
  exact ⟨h.1, le_trans hle h.2⟩

/-- Witness for coverage_threshold_monotone: an expectation addressed at
threshold 70 is addressed at threshold 60. -/
theorem coverage_threshold_monotone_witness :
    (⟨"General", "x"⟩ : Expectation) ∈
      (check_expectations_coverage_t (fun _ _ => 75) 60
        [⟨"General", "x"⟩] ("y")).2.1 :=
  coverage_threshold_monotone (fun _ _ => 75) 60 70 [⟨"General", "x"⟩] ("y")
    ⟨"General", "x"⟩ (by decide) (by decide)

/-- One extraction step preserves the dedup invariants. -/
lemma extractStep_dedupInv (body : ℚ) (st : ScanState) (r : StyledRun)
    (h : DedupInv st) : DedupInv (extractStep body st r) := by
  obtain ⟨h1, h2⟩ := h
  by_cases he : r.text = ""
  · have hst : extractStep body st r = st := by simp [extractStep, he]
    rw [hst]; exact ⟨h1, h2⟩
  by_cases hh : isHeading body r
  · have hst : extractStep body st r =
        { st with current_section := pyTitle (pyStripColons r.text) } := by
      simp [extractStep, he, hh]
    rw [hst]; exact ⟨h1, h2⟩
  by_cases hk : keywords.any (fun k => strContains (pyLower r.text) k)
  · by_cases hs : pyLower r.text ∈ st.seen
    · have hst : extractStep body st r = st := by
        simp [extractStep, he, hh, hk, hs]
      rw [hst]; exact ⟨h1, h2⟩
    · have hst : extractStep body st r = { st with
          expectations := st.expectations ++ [⟨st.current_section, r.text⟩],
          seen := pyLower r.text :: st.seen } := by
        simp [extractStep, he, hh, hk, hs]
      rw [hst]
      constructor
      · simp only [List.map_append, List.map_cons, List.map_nil]
        rw [List.nodup_append]
        refine ⟨h1, List.nodup_singleton _, ?_⟩
        intro a ha hb
        simp only [List.mem_singleton] at hb
        subst hb
        obtain ⟨e, he', hle⟩ := List.mem_map.mp ha
        exact hs (hle ▸ h2 e he')
      · intro e hmem
        rcases List.mem_append.mp hmem with hl | hr
        · exact List.mem_cons_of_mem _ (h2 e hl)
        · simp only [List.mem_singleton] at hr
          subst hr
          exact List.mem_cons_self _ _
  · have hst : extractStep body st r = st := by
      simp [extractStep, he, hh, hk]
    rw [hst]; exact ⟨h1, h2⟩

/-- The dedup invariants hold after folding the whole run list. -/
lemma foldl_extract_dedupInv (body : ℚ) :
    ∀ (runs : List StyledRun) (st : ScanState), DedupInv st →
      DedupInv (runs.foldl (extractStep body) st) := by
  intro runs
  induction runs with
  | nil => intro st h; simpa using h
  | cons r rest ih =>
    intro st h
    exact ih _ (extractStep_dedupInv body st r h)

/-- C3: the extractor never emits two expectations with the same
case-insensitive text: the lowercased texts of the output are pairwise
distinct. -/
theorem extract_rfp_expectations_nodup_lower (runs : List StyledRun) :
    (extract_rfp_expectations runs).Pairwise
      (fun a b => pyLower a.text ≠ pyLower b.text) := by
  have h := foldl_extract_dedupInv (rfp_body_font_size runs) runs initState
    ⟨by simp [initState], by simp [initState]⟩
  have h1 := h.1
  unfold List.Nodup at h1
  rw [List.pairwise_map] at h1
  exact h1

/-- The score component of evaluate_proposal, by unfolding. -/
lemma evaluate_proposal_score_eq (unknown : List String → List String)
    (text : String) (required_sections : List String) (doc : PyDoc) :
    (evaluate_proposal unknown text required_sections doc).score =
      section_percentage required_sections doc * (35 / 100) +
      (if (formatting_check unknown doc).spelling_issues = [] then (100 : ℚ)
        else max 0 (100 - ((formatting_check unknown doc).spelling_issues.length : ℚ) * 10))
        * (20 / 100) +
      (if missing_components_of doc = [] then (100 : ℚ)
        else 100 - ((missing_components_of doc).length : ℚ) * 10) * (25 / 100) +
      ((pyRound ((((if (formatting_check unknown doc).font_ok then (100 : ℚ) else 0) +
        (if (formatting_check unknown doc).font_size_ok then (100 : ℚ) else 0)) / 2)
        * (20 / 100)) : ℤ) : ℚ) := rfl

/-- Rounding an integer-valued rational is the identity. -/
lemma pyRound_natCast (n : ℕ) : pyRound ((n : ℚ)) = (n : ℤ) := by
  unfold pyRound
  rw [Int.floor_natCast]
  have hc : ((n : ℚ)) - (((n : ℤ) : ℚ)) ≠ 1 / 2 := by push_cast; norm_num
  rw [if_neg hc, round_natCast]

/-- The methodology catalog has seven entries, so at most seven can be
missing. -/
lemma missing_components_length_le (doc : PyDoc) :
    (missing_components_of doc).length ≤ 7 := by
  have h := List.length_filter_le
    (fun comp => !(strContains (methodology_text doc) comp)) methodology_components
  simpa [missing_components_of, methodology_components] using h

/-- C2: the composite score is exactly the spec formula
sectionPercent*0.35 + spellScore*0.20 + methodologyScore*0.25 +
formattingScore*0.20, with the three subscores as the spec defines them.
The code writes the methodology subscore without the max(0, _) clamp and
rounds the formatting term, but at most seven methodology components can be
missing (so the clamp is inert) and the formatting term is always the
integer 0, 10 or 20 (so the rounding is the identity). -/
theorem evaluate_proposal_score_formula (unknown : List String → List String)
    (text : String) (required_sections : List String) (doc : PyDoc) :
    (evaluate_proposal unknown text required_sections doc).score =
      section_percentage required_sections doc * (35 / 100) +
      specSpellScore (formatting_check unknown doc).spelling_issues.length * (20 / 100) +
      specMethodologyScore (missing_components_of doc).length * (25 / 100) +
      specFormattingScore (formatting_check unknown doc).font_ok
        (formatting_check unknown doc).font_size_ok * (20 / 100) := by
  have h20 : pyRound ((20 : ℚ)) = 20 := by
    have h := pyRound_natCast 20; norm_num at h; exact h
  have h10 : pyRound ((10 : ℚ)) = 10 := by
    have h := pyRound_natCast 10; norm_num at h; exact h
  have h0 : pyRound ((0 : ℚ)) = 0 := by
    have h := pyRound_natCast 0; norm_num at h; exact h
  have hsp : (if (formatting_check unknown doc).spelling_issues = [] then (100 : ℚ)
      else max 0 (100 - ((formatting_check unknown doc).spelling_issues.length : ℚ) * 10))
      = specSpellScore (formatting_check unknown doc).spelling_issues.length := by
    by_cases h : (formatting_check unknown doc).spelling_issues = []
    · simp [h, specSpellScore]
    · have hlen : (formatting_check unknown doc).spelling_issues.length ≠ 0 := by
        simpa [List.length_eq_zero] using h
      rw [if_neg h, specSpellScore, if_neg hlen]
      ring_nf
  have hm : (if missing_components_of doc = [] then (100 : ℚ)
      else 100 - ((missing_components_of doc).length : ℚ) * 10)
      = specMethodologyScore (missing_components_of doc).length := by
    by_cases h : missing_components_of doc = []
    · simp [h, specMethodologyScore]
    · have hlen : (missing_components_of doc).length ≠ 0 := by
        simpa [List.length_eq_zero] using h
      rw [if_neg h, specMethodologyScore, if_neg hlen]
      have hle : ((missing_components_of doc).length : ℚ) ≤ 7 := by
        exact_mod_cast missing_components_length_le doc
      rw [max_eq_right (by linarith)]
      ring_nf
  have hf : ((pyRound ((((if (formatting_check unknown doc).font_ok then (100 : ℚ) else 0) +
      (if (formatting_check unknown doc).font_size_ok then (100 : ℚ) else 0)) / 2)
      * (20 / 100)) : ℤ) : ℚ)
      = specFormattingScore (formatting_check unknown doc).font_ok
          (formatting_check unknown doc).font_size_ok * (20 / 100) := by
    cases hfo : (formatting_check unknown doc).font_ok <;>
      cases hfs : (formatting_check unknown doc).font_size_ok <;>
        simp only [specFormattingScore, if_true, if_false, Bool.false_eq_true,
          Bool.true_eq_false, ite_true, ite_false]
    · norm_num [h0]
    · norm_num [h10]
    · norm_num [h10]
    · norm_num [h20]
  rw [evaluate_proposal_score_eq, hsp, hm, hf]

/-- The font-ok flag survives a run fold in which no run has a bad font
name. -/
lemma foldl_fmtRunStep_fst (body : ℚ) (style : String) :
    ∀ (runs : List DocRun) (st : Bool × Bool),
      (∀ r ∈ runs, fontNameBad r = false) →
      (runs.foldl (fmtRunStep body style) st).1 = st.1 := by
  intro runs
  induction runs with
  | nil => intro st _; rfl
  | cons r rest ih =>
    intro st h
    have hr := h r (List.mem_cons_self _ _)
    have hrest := fun x hx => h x (List.mem_cons_of_mem _ hx)
    simp only [List.foldl_cons]
    rw [ih _ hrest]
    simp [fmtRunStep, hr]

/-- Once false, the size flag stays false through a run fold. -/
lemma foldl_fmtRunStep_snd_false (body : ℚ) (style : String) :
    ∀ (runs : List DocRun) (st : Bool × Bool), st.2 = false →
      (runs.foldl (fmtRunStep body style) st).2 = false := by
  intro runs
  induction runs with
  | nil => intro st h; exact h
  | cons r rest ih =>
    intro st h
    simp only [List.foldl_cons]
    apply ih
    simp [fmtRunStep, h]

/-- A size-violating run inside the fold forces the size flag to false. -/
lemma foldl_fmtRunStep_snd_bad (body : ℚ) (style : String) :
    ∀ (runs : List DocRun) (st : Bool × Bool) (r : DocRun), r ∈ runs →
      fontSizeBad body style r = true →
      (runs.foldl (fmtRunStep body style) st).2 = false := by
  intro runs
  induction runs with
  | nil => intro st r h; exact absurd h (List.not_mem_nil r)
  | cons x rest ih =>
    intro st r hmem hbad
    rcases List.mem_cons.mp hmem with heq | htail
    · subst heq
      simp only [List.foldl_cons]
      apply foldl_fmtRunStep_snd_false
      simp [fmtRunStep, hbad]
    · exact ih _ r htail hbad

/-- Once false, the size flag stays false through the paragraph scan (the
break fires at once). -/
lemma fmtScan_snd_false (body : ℚ) (ps : List DocParagraph)
    (st : Bool × Bool) (h : st.2 = false) : (fmtScan body ps st).2 = false := by
  cases ps with
  | nil => exact h
  | cons p rest =>
    have h' := foldl_fmtRunStep_snd_false body p.style_name p.runs st h
    simp [fmtScan, h']

/-- If no run of the scanned paragraphs has a bad font name, the font flag is
true on entry, and some scanned run violates the body-size rule, then the
scan ends with the size flag false (the break can then only fire on the size
flag itself). -/
lemma fmtScan_snd_bad (body : ℚ) :
    ∀ (ps : List DocParagraph) (st : Bool × Bool),
      (∀ p ∈ ps, ∀ r ∈ p.runs, fontNameBad r = false) → st.1 = true →
      (∃ p ∈ ps, ∃ r ∈ p.runs, fontSizeBad body p.style_name r = true) →
      (fmtScan body ps st).2 = false := by
  intro ps
  induction ps with
  | nil => intro st _ _ hex; simp at hex
  | cons p rest ih =>
    intro st hfonts hfst hex
    have hfst' : (p.runs.foldl (fmtRunStep body p.style_name) st).1 = true := by
      rw [foldl_fmtRunStep_fst body p.style_name p.runs st
        (hfonts p (List.mem_cons_self _ _))]
      exact hfst
    rcases hex with ⟨q, hq, r, hr, hbad⟩
    rcases List.mem_cons.mp hq with heq | htail
    · subst heq
      have hsnd := foldl_fmtRunStep_snd_bad body q.style_name q.runs st r hr hbad
      simp [fmtScan, hsnd]
    · by_cases hsnd : (p.runs.foldl (fmtRunStep body p.style_name) st).2 = false
      · simp [fmtScan, hsnd]
      · have hsnd' : (p.runs.foldl (fmtRunStep body p.style_name) st).2 = true := by
          simpa using hsnd
        simp only [fmtScan, hfst', hsnd', Bool.not_true, Bool.or_self, if_false,
          Bool.false_or]
        exact ih _ (fun x hx => hfonts x (List.mem_cons_of_mem _ hx)) hfst'
          ⟨q, htail, r, hr, hbad⟩

/-- C7 counterexample: a size-violating non-heading run exists, yet
fontSizeOk is true, because a bad font name in an earlier paragraph stopped
the scan. -/
theorem font_size_ok_any_run_counterexample :
    (formatting_check (fun _ => []) breakDoc).font_size_ok = true ∧
    (∃ p ∈ breakDoc.paragraphs, ∃ r ∈ p.runs,
      fontSizeBad (doc_body_font_size breakDoc) p.style_name r = true) := by
  constructor
  · decide
  · decide

/-- C7 amended: provided the font name of every run (when truthy) lies in the
approved set -- so that the early exit cannot be triggered by the font-name
flag -- fontSizeOk is false whenever any run carries a truthy font size
different from the modal body baseline inside a paragraph whose style is not
Heading 1/2/3. -/
theorem font_size_ok_false_of_violation (unknown : List String → List String)
    (doc : PyDoc)
    (hfonts : ∀ p ∈ doc.paragraphs, ∀ r ∈ p.runs, fontNameBad r = false)
    (p : DocParagraph) (hp : p ∈ doc.paragraphs) (r : DocRun) (hr : r ∈ p.runs)
    (hbad : fontSizeBad (doc_body_font_size doc) p.style_name r = true) :
    (formatting_check unknown doc).font_size_ok = false := by
  show (fmtScan (doc_body_font_size doc) doc.paragraphs (true, true)).2 = false
  exact fmtScan_snd_bad (doc_body_font_size doc) doc.paragraphs (true, true)
    hfonts rfl ⟨p, hp, r, hr, hbad⟩

/-- Witness for font_size_ok_false_of_violation on a concrete document. -/
theorem font_size_ok_false_of_violation_witness :
    (formatting_check (fun _ => []) goodFontBadSizeDoc).font_size_ok = false :=
  font_size_ok_false_of_violation (fun _ => []) goodFontBadSizeDoc
    (by decide)
    ⟨"second paragraph", "Normal", [⟨some ("candara"), some 14⟩]⟩ (by decide)
    ⟨some ("candara"), some 14⟩ (by decide) (by decide)

/-- The recommendations component of evaluate_proposal, by unfolding. -/
lemma evaluate_proposal_recommendations_eq (unknown : List String → List String)
    (text : String) (required_sections : List String) (doc : PyDoc) :
    (evaluate_proposal unknown text required_sections doc).recommendations =
      (if ((section_results required_sections doc).filter
            (fun x => !x.2)).map (fun x => x.1) ≠ [] then
        ["Kindly include the following missing sections: " ++
          joinWith (", ") (((section_results required_sections doc).filter
            (fun x => !x.2)).map (fun x => x.1))] else []) ++
      (if (formatting_check unknown doc).spelling_issues ≠ [] then
        ["Spelling issues found in the document."] else []) ++
      (if !(formatting_check unknown doc).font_ok then
        ["Document should use font \x27Tenorite\x27 or \x27Candara\x27 throughout."] else []) ++
      (if !(formatting_check unknown doc).font_size_ok then
        ["Body text should use font size 11."] else []) ++
      (if missing_components_of doc ≠ [] then
        ["The methodology section is missing the following components: " ++
          pyTitle (joinWith (", ") (missing_components_of doc).dedup)] else []) := rfl

/-- Scenario B as the code actually computes it, for any proposal meeting the
scenario conditions: every required section present except Budget, no
spelling issues, approved fonts at a uniform body size, and no missing
methodology component. -/
theorem scenario_b_amended (unknown : List String → List String)
    (text : String) (doc : PyDoc)
    (h1 : sectionFound doc ("Table of content") = true)
    (h2 : sectionFound doc ("Introduction") = true)
    (h3 : sectionFound doc ("Background") = true)
    (h4 : sectionFound doc ("Objective") = true)
    (h5 : sectionFound doc ("Methodology") = true)
    (h6 : sectionFound doc ("Project Team") = true)
    (h7 : sectionFound doc ("About Sahel") = true)
    (h8 : sectionFound doc ("Work Plan") = true)
    (hb : sectionFound doc ("Budget") = false)
    (hsp : (formatting_check unknown doc).spelling_issues = [])
    (hfo : (formatting_check unknown doc).font_ok = true)
    (hfs : (formatting_check unknown doc).font_size_ok = true)
    (hm : missing_components_of doc = []) :
    section_percentage STANDARD_SECTIONS doc = 800 / 9 ∧
    (evaluate_proposal unknown text STANDARD_SECTIONS doc).score = 865 / 9 ∧
    (evaluate_proposal unknown text STANDARD_SECTIONS doc).recommendations =
      ["Kindly include the following missing sections: Budget"] := by
  have hsec : section_percentage STANDARD_SECTIONS doc = 800 / 9 := by
    simp only [section_percentage, section_results, STANDARD_SECTIONS, List.map_cons,
      List.map_nil, h1, h2, h3, h4, h5, h6, h7, h8, hb]
    norm_num [List.filter]
  refine ⟨hsec, ?_, ?_⟩
  · rw [evaluate_proposal_score_eq, hsec, hsp, hm, hfo, hfs]
    have h20 : pyRound ((20 : ℚ)) = 20 := by
      have h := pyRound_natCast 20; norm_num at h; exact h
    norm_num [h20]
  · rw [evaluate_proposal_recommendations_eq]
    simp only [section_results, STANDARD_SECTIONS, List.map_cons, List.map_nil,
      h1, h2, h3, h4, h5, h6, h7, h8, hb, hsp, hfo, hfs, hm]
    simp [List.filter, joinWith]

/-- C8 counterexample: scenarioBDoc satisfies every scenario-B condition, yet
the section percentage is (8/9)*100 = 800/9, not (5/6)*100, and the composite
score is 865/9 (about 96.11), not about 94.17: the or-chains in
STANDARD_SECTIONS collapse to single strings, leaving nine required sections,
not six. -/
theorem scenario_b_counterexample :
    (∀ sec ∈ STANDARD_SECTIONS, sec ≠ "Budget" → sectionFound scenarioBDoc sec = true) ∧
    sectionFound scenarioBDoc ("Budget") = false ∧
    (formatting_check (fun _ => []) scenarioBDoc).spelling_issues = [] ∧
    (formatting_check (fun _ => []) scenarioBDoc).font_ok = true ∧
    (formatting_check (fun _ => []) scenarioBDoc).font_size_ok = true ∧
    missing_components_of scenarioBDoc = [] ∧
    section_percentage STANDARD_SECTIONS scenarioBDoc = 800 / 9 ∧
    section_percentage STANDARD_SECTIONS scenarioBDoc ≠ (5 / 6) * 100 ∧
    (evaluate_proposal (fun _ => []) ("") STANDARD_SECTIONS scenarioBDoc).score = 865 / 9 ∧
    (evaluate_proposal (fun _ => []) ("") STANDARD_SECTIONS scenarioBDoc).score ≠ 9417 / 100 := by
  have hsec : section_percentage STANDARD_SECTIONS scenarioBDoc = 800 / 9 := by
    simp only [section_percentage, section_results, STANDARD_SECTIONS, List.map_cons,
      List.map_nil,
      (by decide : sectionFound scenarioBDoc ("Table of content") = true),
      (by decide : sectionFound scenarioBDoc ("Introduction") = true),
      (by decide : sectionFound scenarioBDoc ("Background") = true),
      (by decide : sectionFound scenarioBDoc ("Objective") = true),
      (by decide : sectionFound scenarioBDoc ("Methodology") = true),
      (by decide : sectionFound scenarioBDoc ("Project Team") = true),
      (by decide : sectionFound scenarioBDoc ("About Sahel") = true),
      (by decide : sectionFound scenarioBDoc ("Work Plan") = true),
      (by decide : sectionFound scenarioBDoc ("Budget") = false)]
    norm_num [List.filter]
  have hsp : (formatting_check (fun _ => []) scenarioBDoc).spelling_issues = [] := by decide
  have hfo : (formatting_check (fun _ => []) scenarioBDoc).font_ok = true := by decide
  have hfs : (formatting_check (fun _ => []) scenarioBDoc).font_size_ok = true := by decide
  have hm : missing_components_of scenarioBDoc = [] := by decide
  have hscore : (evaluate_proposal (fun _ => []) ("") STANDARD_SECTIONS scenarioBDoc).score
      = 865 / 9 := by
    rw [evaluate_proposal_score_eq, hsec, hsp, hm, hfo, hfs]
    have h20 : pyRound ((20 : ℚ)) = 20 := by
      have h := pyRound_natCast 20; norm_num at h; exact h
    norm_num [h20]
  refine ⟨by decide, by decide, hsp, hfo, hfs, hm, hsec, ?_, hscore, ?_⟩
  · rw [hsec]; norm_num
  · rw [hscore]; norm_num

/-- Witness for scenario_b_amended at the concrete scenario-B document. -/
theorem scenario_b_amended_witness :
    section_percentage STANDARD_SECTIONS scenarioBDoc = 800 / 9 ∧
    (evaluate_proposal (fun _ => []) ("") STANDARD_SECTIONS scenarioBDoc).score = 865 / 9 ∧
    (evaluate_proposal (fun _ => []) ("") STANDARD_SECTIONS scenarioBDoc).recommendations =
      ["Kindly include the following missing sections: Budget"] :=
  scenario_b_amended (fun _ => []) ("") scenarioBDoc
    (by decide) (by decide) (by decide) (by decide) (by decide) (by decide)
    (by decide) (by decide) (by decide) (by decide) (by decide) (by decide)
    (by decide)

end CombinedApp
